import Mathlib

/-!
Shallow embedding of the Video-Streaming-Platform backend controllers.

Ids (Mongo ObjectIds) are modelled as `String`s; each persistent collection is a
`List` of records; every controller is a pure function from the relevant stores
and request parameters to an `Except ApiError` result, returning the updated
store where the handler writes.  JavaScript `undefined` is modelled as `none` of
an `Option` type, JS string truthiness as non-emptiness, and the JS `&&`
operator on strings by its value semantics (first operand when falsy, second
otherwise).
-/

/-- The error value raised by handlers (`ApiError` in `src/utils/ApiError.js`):
an HTTP status code plus a message. -/
structure ApiError where
  statusCode : Nat
  message : String
deriving Repr, DecidableEq

/-- JS truthiness of a string: every string except the empty one is truthy. -/
def jsTruthy (s : String) : Bool := s != ""

/-- The JS `&&` operator restricted to strings: returns the first operand when
it is falsy (the empty string), otherwise the second operand. -/
def jsAndStr (a b : String) : String := if a == "" then a else b

/-- `mongoose.isValidObjectId`: a 24-character lowercase-hex string (or any
12-character string, the 12-byte form accepted by the driver). -/
def isValidObjectId (s : String) : Bool :=
  (s.length == 24 && s.data.all (fun c => c.isDigit || (decide (c ≥ 'a') && decide (c ≤ 'f'))))
    || s.length == 12

/-- Substring containment: `pat` occurs contiguously inside `s`.  This models
the MongoDB `$regex` operator for patterns that contain no regex
metacharacters (a plain free-text query), which then matches exactly the
strings containing the pattern as a substring, case-sensitively. -/
def strContains (s pat : String) : Bool := decide (pat.data <:+: s.data)

/-- A User document (`user.model.js`): only the fields the verified handlers
read.  `refreshToken` is the stored session-rotation token (absent = no
session). -/
structure User where
  id : String
  username : String
  fullName : String
  avtar : String
  refreshToken : Option String
deriving Repr, DecidableEq

/-- A Video document (`video.model.js`). -/
structure Video where
  id : String
  owner : String
  title : String
  description : String
  videoFile : String
  thumbnail : String
  views : Nat
  isPublished : Bool
  createdAt : Nat
deriving Repr, DecidableEq

/-- A Comment document (`comment.model.js`). -/
structure Comment where
  id : String
  content : String
  video : String
  owner : String
deriving Repr, DecidableEq

/-- A Tweet document (`tweet.model.js`). -/
structure Tweet where
  id : String
  content : String
  owner : String
  createdAt : Nat
deriving Repr, DecidableEq

/-- A Playlist document (`playlist.model.js`): ordered list of video ids. -/
structure Playlist where
  id : String
  name : String
  description : String
  owner : String
  videos : List String
deriving Repr, DecidableEq

/-- A Like document (`like.model.js`): exactly one of the three target
references is set, plus the liker. -/
structure Like where
  id : String
  video : Option String
  comment : Option String
  tweet : Option String
  likedBy : String
deriving Repr, DecidableEq

/-! ## Like toggles (`src/unnamed/part_006`, like controller) -/

/-- The `findOne` filter of `toggleVideoLike`: a Like for this video by this
user. -/
def videoLikePred (videoId reqUserId : String) (l : Like) : Bool :=
  l.video == some videoId && l.likedBy == reqUserId

/-- The `findOne` filter of `toggleCommentLike`: a Like for this comment by
this user. -/
def commentLikePred (commentId reqUserId : String) (l : Like) : Bool :=
  l.comment == some commentId && l.likedBy == reqUserId

/-- The state effect of `toggleVideoLike` on the Like store, with the returned
`isLiked` flag: if a Like by the requester for the video exists it is deleted
by its id (`findByIdAndDelete`), otherwise a new Like (with fresh id `newId`)
is created. -/
def toggleVideoLikeCore (likes : List Like) (videoId reqUserId newId : String) :
    List Like × Bool :=
  match likes.find? (videoLikePred videoId reqUserId) with
  | some alreadyLiked => (likes.filter (fun x => x.id != alreadyLiked.id), false)
  | none =>
      (likes ++ [{ id := newId, video := some videoId, comment := none,
                   tweet := none, likedBy := reqUserId }], true)

/-- Handler `toggleVideoLike`: validates the video id, then toggles. -/
def toggleVideoLike (likes : List Like) (videoId reqUserId newId : String) :
    Except ApiError (List Like × Bool) :=
  if !(jsTruthy videoId && isValidObjectId videoId) then
    .error ⟨400, "Invalid video id"⟩
  else
    .ok (toggleVideoLikeCore likes videoId reqUserId newId)

/-- The state effect of `toggleCommentLike` on the Like store. -/
def toggleCommentLikeCore (likes : List Like) (commentId reqUserId newId : String) :
    List Like × Bool :=
  match likes.find? (commentLikePred commentId reqUserId) with
  | some alreadyLiked => (likes.filter (fun x => x.id != alreadyLiked.id), false)
  | none =>
      (likes ++ [{ id := newId, video := none, comment := some commentId,
                   tweet := none, likedBy := reqUserId }], true)

/-- Handler `toggleCommentLike`: validates the comment id, then toggles. -/
def toggleCommentLike (likes : List Like) (commentId reqUserId newId : String) :
    Except ApiError (List Like × Bool) :=
  if !(jsTruthy commentId && isValidObjectId commentId) then
    .error ⟨400, "Invalid comment id"⟩
  else
    .ok (toggleCommentLikeCore likes commentId reqUserId newId)

/-- Membership state of the Like store for a given `findOne` filter: does a
matching Like exist. -/
def likeExists (p : Like → Bool) (likes : List Like) : Bool :=
  (likes.find? p).isSome

/-! ## Pagination and the read-model pipelines -/

/-- Insertion step for a descending sort by a numeric key (models the
`$sort` stage with direction `-1`). -/
def insertDescBy (key : α → Nat) (x : α) : List α → List α
  | [] => [x]
  | y :: ys => if key y < key x then x :: y :: ys else y :: insertDescBy key x ys

/-- Descending insertion sort by a numeric key; models the default
`createdAt: -1` sort stage. -/
def sortDescBy (key : α → Nat) : List α → List α
  | [] => []
  | x :: xs => insertDescBy key x (sortDescBy key xs)

/-- The result shape of `aggregatePaginate`: the page of records plus the
pagination bookkeeping. -/
structure PaginateResult (α : Type) where
  docs : List α
  totalDocs : Nat
  limit : Nat
  page : Nat
  totalPages : Nat
deriving Repr, DecidableEq

/-- Modelled from the spec: the pagination wrapper (the external
`mongoose-aggregate-paginate-v2` plugin providing `Model.aggregatePaginate`,
not part of this repository) wraps the fully computed, sorted result set with
page/limit slicing and returns the total count, page count, current page and
the page records; an out-of-range page yields an empty page, not an error. -/
def aggregatePaginate (l : List α) (page limit : Nat) : PaginateResult α :=
  { docs := (l.drop ((page - 1) * limit)).take limit
    totalDocs := l.length
    limit := limit
    page := page
    totalPages := (l.length + limit - 1) / limit }

/-- The `$match` stage of `getAllVideos`: `$or` of owner equality with the
scoping user id and title `$regex`-containing the free-text query. -/
def videoFeedMatch (userId query : String) (v : Video) : Bool :=
  v.owner == userId || strContains v.title query

/-- Owner fields projected by the `getAllVideos` lookup sub-pipeline
(`username`, `avtar`, plus the implicit `_id`). -/
structure VideoOwnerProj where
  oid : String
  username : String
  avtar : String
deriving Repr, DecidableEq

/-- A video-feed row after the lookup and `$unwind` of `ownerDetails`. -/
structure VideoFeedRow where
  video : Video
  ownerDetails : VideoOwnerProj
deriving Repr, DecidableEq

/-- The aggregation pipeline of `getAllVideos` on the default sort
(`sortBy` absent, `sortType` not `asc`): match, lookup of the owner user,
`$unwind` (which drops a video whose owner has no user document), sort by
`createdAt` descending. -/
def videoFeedPipeline (videos : List Video) (users : List User)
    (userId query : String) : List VideoFeedRow :=
  sortDescBy (fun r => r.video.createdAt)
    ((videos.filter (videoFeedMatch userId query)).filterMap (fun v =>
      (users.find? (fun u => u.id == v.owner)).map (fun u =>
        { video := v, ownerDetails := { oid := u.id, username := u.username, avtar := u.avtar } })))

/-- Handler `getAllVideos` (`video.controller.js`): validates the scoping
user id, runs the pipeline, paginates, and raises a 500 error when the
paginated total is zero. -/
def getAllVideos (videos : List Video) (users : List User)
    (userId query : String) (page limit : Nat) :
    Except ApiError (PaginateResult VideoFeedRow) :=
  if !(jsTruthy userId && isValidObjectId userId) then
    .error ⟨400, "Invalid userId"⟩
  else
    let video := aggregatePaginate (videoFeedPipeline videos users userId query) page limit
    if video.totalDocs == 0 then
      .error ⟨500, "Video not found"⟩
    else
      .ok video

/-- A comment-list row after the lookups and `$addFields` stage of
`getVideoComments`. -/
structure CommentRow where
  comment : Comment
  owners : List User
  likes : List Like
  likesCount : Nat
  owner : Option User
  isLiked : Bool
deriving Repr, DecidableEq

/-- The aggregation pipeline of `getVideoComments`: match the video id, look
up the owner users and the comment likes, and add `likesCount`
(`$size` of the likes array), `owner` (`$first` of the owners array) and
`isLiked` (`$in` of the requesting user id in the joined likes array of
`likedBy` values). -/
def commentListPipeline (comments : List Comment) (users : List User)
    (likes : List Like) (reqUserId videoId : String) : List CommentRow :=
  (comments.filter (fun c => c.video == videoId)).map (fun c =>
    let owners := users.filter (fun u => u.id == c.owner)
    let ls := likes.filter (fun l => l.comment == some c.id)
    { comment := c
      owners := owners
      likes := ls
      likesCount := ls.length
      owner := owners.head?
      isLiked := decide (reqUserId ∈ ls.map Like.likedBy) })

/-- Handler `getVideoComments` (`comment.controller.js`): validates the video
id, runs the pipeline and paginates; an empty page is returned as a success
(the two null-checks in the source can never fire on an array result). -/
def getVideoComments (comments : List Comment) (users : List User)
    (likes : List Like) (reqUserId videoId : String) (page limit : Nat) :
    Except ApiError (PaginateResult CommentRow) :=
  if !(isValidObjectId videoId) then
    .error ⟨400, "Invalid video id"⟩
  else
    .ok (aggregatePaginate (commentListPipeline comments users likes reqUserId videoId) page limit)

/-! ## Identity and session handlers (`src/unnamed/part_004`, user controller) -/

/-- The token pair placed in the JSON body of `refreshAccessToken`:
`accessToken` is always a string, `refreshToken` is `Option` because the
source can place the JS value `undefined` there. -/
structure AuthTokens where
  accessToken : String
  refreshToken : Option String
deriving Repr, DecidableEq

/-- `generateAccessAndRefreshTokens`: loads the user, generates a fresh
access and refresh token (the token-generation methods live in the missing
`user.model.js`; modelled from the spec as opaque fresh strings supplied by
the caller), stores the fresh refresh token on the user document, and returns
both tokens.  A lookup failure surfaces as the catch-all 500 error. -/
def generateAccessAndRefreshTokens (users : List User)
    (uid freshAccess freshRefresh : String) :
    Except ApiError (List User × String × String) :=
  match users.find? (fun u => u.id == uid) with
  | none =>
      .error ⟨500, "Something went wrong while generating access and refresh tokens"⟩
  | some _ =>
      .ok (users.map (fun x =>
              if x.id == uid then { x with refreshToken := some freshRefresh } else x),
            freshAccess, freshRefresh)

/-- `findByIdAndUpdate` with a `$set` of the `refreshToken` field.  `none`
stands for the JS value `undefined`: Mongoose strips keys whose value is
`undefined` when casting an update, so such a `$set` becomes empty and the
stored document is unchanged. -/
def setRefreshTokenUpdate (users : List User) (uid : String)
    (v : Option String) : List User :=
  match v with
  | none => users
  | some s =>
      users.map (fun u => if u.id == uid then { u with refreshToken := some s } else u)

/-- Handler `logoutUser`: `findByIdAndUpdate` of the requesting user with
`$set` of `refreshToken` to `undefined` (then clears the cookies, which are
outside the store). -/
def logoutUser (users : List User) (reqUserId : String) : List User :=
  setRefreshTokenUpdate users reqUserId none

/-- Handler `refreshAccessToken`: reads the incoming refresh token
(`none` = missing), verifies it (`verify` models `jwt.verify` of the external
`jsonwebtoken` library: it returns the decoded user id for a valid unexpired
token and nothing for an invalid or expired one), loads the user, compares
the incoming token with the stored rotation token, rotates the stored token,
and answers with the token pair.  The source destructures
`accessToken, newRefreshToken` from a function returning
`accessToken, refreshToken` fields, so `newRefreshToken` is the JS value
`undefined` and the response carries no refresh token.  Every failure inside
the `try` is rethrown as a 401 with the original message. -/
def refreshAccessToken (users : List User) (verify : String → Option String)
    (freshAccess freshRefresh : String) (incoming : Option String) :
    Except ApiError (List User × AuthTokens) :=
  match incoming with
  | none => .error ⟨401, "Unauthorized request"⟩
  | some tok =>
    match verify tok with
    | none => .error ⟨401, "Invalid refresh token"⟩
    | some decodedId =>
      match users.find? (fun u => u.id == decodedId) with
      | none => .error ⟨401, "Invalid refresh token"⟩
      | some user =>
        if (some tok) != user.refreshToken then
          .error ⟨401, "Refresh token is expired or used"⟩
        else
          match generateAccessAndRefreshTokens users user.id freshAccess freshRefresh with
          | .error e => .error ⟨401, e.message⟩
          | .ok (usersAfter, accessToken, _) =>
              .ok (usersAfter, { accessToken := accessToken, refreshToken := none })

/-! ## Comment mutations (`comment.controller.js`) -/

/-- Handler `updateComment`: validates the id and content, loads the comment,
compares the requester id with the optional-chained owner of the (possibly
absent) comment, and updates the content.  When the comment is absent the
optional chain yields `undefined`, the strict inequality with the requester
id holds, and the ownership error is raised before any existence check. -/
def updateComment (comments : List Comment) (reqUserId commentId content : String) :
    Except ApiError (List Comment) :=
  if !(isValidObjectId commentId) then
    .error ⟨400, "Invalid video id"⟩
  else if !(jsTruthy content) then
    .error ⟨400, "Invalid content"⟩
  else
    let getComment := comments.find? (fun c => c.id == commentId)
    if (some reqUserId) != getComment.map Comment.owner then
      .error ⟨400, "User is not the owner of this comment"⟩
    else
      .ok (comments.map (fun c =>
            if c.id == commentId then { c with content := content } else c))

/-- Handler `deleteComment`: the same ownership-before-existence comparison as
`updateComment`, then `findByIdAndDelete`. -/
def deleteComment (comments : List Comment) (reqUserId commentId : String) :
    Except ApiError (List Comment) :=
  if !(jsTruthy commentId && isValidObjectId commentId) then
    .error ⟨400, "Invalid comment id"⟩
  else
    let getComment := comments.find? (fun c => c.id == commentId)
    if (some reqUserId) != getComment.map Comment.owner then
      .error ⟨400, "User is not the owner of this comment"⟩
    else
      .ok (comments.filter (fun c => c.id != commentId))

/-! ## Tweet feed (`tweet.controller.js`) -/

/-- Handler `updateTweet`: validates content and id, loads the tweet, raises
404 if absent, raises the ownership error when the requester is not the
owner, then updates the content. -/
def updateTweet (tweets : List Tweet) (reqUserId tweetId content : String) :
    Except ApiError (List Tweet) :=
  if !(jsTruthy content) then
    .error ⟨400, "Invalid content"⟩
  else if !(jsTruthy tweetId && isValidObjectId tweetId) then
    .error ⟨400, "Invalid tweet id"⟩
  else
    match tweets.find? (fun t => t.id == tweetId) with
    | none => .error ⟨404, "Tweet not found"⟩
    | some tweet =>
      if tweet.owner != reqUserId then
        .error ⟨400, "Only owner can edit their tweet"⟩
      else
        .ok (tweets.map (fun t =>
              if t.id == tweetId then { t with content := content } else t))

/-- Owner fields actually present on each `ownerDetails` document of the
`getUserTweets` lookup sub-pipeline: the projection keeps `username` and the
path `avatar.url` plus the implicit `_id`; the User schema stores the avatar
under the field `avtar`, so the `avatar.url` path projects nothing. -/
structure TweetOwnerDoc where
  oid : String
  username : String
deriving Repr, DecidableEq

/-- Field lookup on an `ownerDetails` document, enumerating the string fields
the document actually carries.  Any other path (in particular `likedBy`)
resolves to nothing. -/
def TweetOwnerDoc.getStrField (d : TweetOwnerDoc) : String → Option String
  | "_id" => some d.oid
  | "username" => some d.username
  | _ => none

/-- A tweet-feed row after the `$addFields`, `$sort` and `$project` stages of
`getUserTweets`. -/
structure TweetRow where
  tid : String
  content : String
  ownerDetails : Option TweetOwnerDoc
  likesCount : Nat
  isLiked : Bool
  createdAt : Nat
deriving Repr, DecidableEq

/-- The aggregation pipeline of `getUserTweets`: match the owner, look up the
owner user into `ownerDetails`, look up the tweet likes into `likeDetails`,
then add `likesCount` (`$size` of `likeDetails`), flatten `ownerDetails`
(`$first`), and compute `isLiked` as `$in` of the path parameter `userId`
(not the requesting viewer) in the array path `ownerDetails.likedBy` (not
`likeDetails.likedBy`), sorted by `createdAt` descending. -/
def tweetFeedPipeline (tweets : List Tweet) (users : List User)
    (likes : List Like) (userId : String) : List TweetRow :=
  sortDescBy (fun r => r.createdAt)
    ((tweets.filter (fun t => t.owner == userId)).map (fun t =>
      let ownerDetails : List TweetOwnerDoc :=
        (users.filter (fun u => u.id == t.owner)).map (fun u =>
          { oid := u.id, username := u.username })
      let likeDetails : List Like := likes.filter (fun l => l.tweet == some t.id)
      { tid := t.id
        content := t.content
        likesCount := likeDetails.length
        ownerDetails := ownerDetails.head?
        isLiked :=
          decide (userId ∈ ownerDetails.filterMap (fun d => d.getStrField "likedBy"))
        createdAt := t.createdAt }))

/-- Handler `getUserTweets`: validates the path user id, requires the user to
exist, and runs the pipeline.  `reqUserId` is the authenticated viewer; the
pipeline never reads it. -/
def getUserTweets (tweets : List Tweet) (users : List User) (likes : List Like)
    (reqUserId userId : String) : Except ApiError (List TweetRow) :=
  if !(jsTruthy userId && isValidObjectId userId) then
    .error ⟨400, "Invalid user id"⟩
  else if (users.find? (fun u => u.id == userId)).isNone then
    .error ⟨400, "User not found"⟩
  else
    .ok (tweetFeedPipeline tweets users likes userId)

/-! ## Video mutations (`video.controller.js`) -/

/-- Splitting a character list on a separator character (helper for the JS
`String.split` model below). -/
def splitOnChar (sep : Char) : List Char → List (List Char)
  | [] => [[]]
  | c :: cs =>
      let r := splitOnChar sep cs
      if c == sep then [] :: r
      else
        match r with
        | [] => [[c]]
        | g :: gs => (c :: g) :: gs

/-- JS `url.split sep` for a one-character separator, as a `String` function:
the list of groups between occurrences of the separator (JS `split` always
returns a non-empty array, as does this). -/
def jsSplit (url : String) (sep : Char) : List String :=
  (splitOnChar sep url.data).map String.mk

/-- Public id derivation used before every Cloudinary deletion
(`url.split` on `/`, `pop`, `split` on `.`, index 0): the last `/` segment
of the URL, cut at its first `.` (the file name minus its extension). -/
def publicIdOf (url : String) : String :=
  ((jsSplit ((jsSplit url '/').getLastD "") '.').headD "")

/-- Modelled from the spec: `deleteFromCloudinary`
(`src/utils/deleteImageAfterUpdate.js`, not under `src/`) asks the media host
to delete the object with the given public id; per the spec a deletion
failure is logged and not fatal, so the call records the attempt, reports the
host outcome from the oracle `mediaOk`, and never raises. -/
def deleteFromCloudinary (mediaOk : String → Bool) (publicId : String) :
    Bool × String :=
  (mediaOk publicId, publicId)

/-- The result of `deleteVideo`: the remaining video store and the public ids
sent to the media host, in call order. -/
structure DeleteVideoOut where
  videos : List Video
  attempts : List String
deriving Repr, DecidableEq

/-- Handler `deleteVideo`: validates the id, loads the video (400 when
absent), deletes the document, then deletes the primary asset and the
thumbnail from the media host, each guarded only by the truthiness of its
URL.  No ownership check is performed: the handler never reads the
authenticated requester.  The two media deletions are sequential and their
outcomes do not influence control flow. -/
def deleteVideo (videos : List Video) (mediaOk : String → Bool)
    (videoId : String) : Except ApiError DeleteVideoOut :=
  if !(jsTruthy videoId && isValidObjectId videoId) then
    .error ⟨400, "Invalid video id"⟩
  else
    match videos.find? (fun v => v.id == videoId) with
    | none => .error ⟨400, "Video not found"⟩
    | some video =>
      let remaining := videos.filter (fun x => x.id != video.id)
      let att1 :=
        if jsTruthy video.videoFile then
          [(deleteFromCloudinary mediaOk (publicIdOf video.videoFile)).2]
        else []
      let att2 :=
        if jsTruthy video.thumbnail then
          [(deleteFromCloudinary mediaOk (publicIdOf video.thumbnail)).2]
        else []
      .ok { videos := remaining, attempts := att1 ++ att2 }

/-- Handler `updateVideo`: validates the id and the new title/description,
loads the old video (reading `.thumbnail` of a missing document raises a
TypeError, surfaced as a 500), requires an uploaded thumbnail (its local path
and resulting URL are request data, modelled as parameters), updates
title, description and thumbnail, then purges the old thumbnail.  No
ownership check is performed: `reqUserId` is never read. -/
def updateVideo (videos : List Video) (mediaOk : String → Bool)
    (reqUserId videoId title description : String)
    (thumbnailLocalPath : Option String) (uploadedThumbUrl : String) :
    Except ApiError (List Video × List String) :=
  if !(jsTruthy videoId && isValidObjectId videoId) then
    .error ⟨400, "Invalid video id"⟩
  else if !(jsTruthy title && jsTruthy description) then
    .error ⟨400, "All fields are required"⟩
  else
    match videos.find? (fun v => v.id == videoId) with
    | none => .error ⟨500, "TypeError"⟩
    | some oldVideo =>
      match thumbnailLocalPath with
      | none => .error ⟨400, "File path missing"⟩
      | some _ =>
        if !(jsTruthy uploadedThumbUrl) then
          .error ⟨400, "Thumbnail URL missing"⟩
        else
          let updated := videos.map (fun v =>
            if v.id == videoId then
              { v with title := title, description := description,
                       thumbnail := uploadedThumbUrl }
            else v)
          let attempts :=
            if jsTruthy oldVideo.thumbnail then
              [(deleteFromCloudinary mediaOk (publicIdOf oldVideo.thumbnail)).2]
            else []
          .ok (updated, attempts)

/-! ## Playlist video add/remove (`src/unnamed/part_002`, playlist controller) -/

/-- The ownership guard of `addVideoToPlaylist` and
`removeVideoFromPlaylist`, exactly as grouped in the source: the JS `&&` of
the playlist-owner string and the video-owner string, compared against the
requester id with strict inequality.  Since `&&` returns its second operand
whenever the first is truthy, a non-empty playlist-owner string makes the
guard depend on the video owner alone. -/
def playlistGuardRejects (playlistOwner videoOwner reqUserId : String) : Bool :=
  jsAndStr playlistOwner videoOwner != reqUserId

/-- Handler `addVideoToPlaylist`: validates both ids, loads the video and the
playlist, applies the grouped ownership guard, then `$addToSet`s the video
id into the playlist. -/
def addVideoToPlaylist (playlists : List Playlist) (videos : List Video)
    (reqUserId playlistId videoId : String) :
    Except ApiError (List Playlist) :=
  if !(jsTruthy playlistId && jsTruthy videoId)
      || !(isValidObjectId playlistId && isValidObjectId videoId) then
    .error ⟨400, "Invalid video and playlist"⟩
  else
    match videos.find? (fun v => v.id == videoId) with
    | none => .error ⟨400, "Video not found"⟩
    | some video =>
      match playlists.find? (fun p => p.id == playlistId) with
      | none => .error ⟨400, "Playlist not found"⟩
      | some playlist =>
        if playlistGuardRejects playlist.owner video.owner reqUserId then
          .error ⟨400, "only owner can add video to their playlist"⟩
        else
          .ok (playlists.map (fun p =>
            if p.id == playlistId then
              { p with videos :=
                  if videoId ∈ p.videos then p.videos else p.videos ++ [videoId] }
            else p))

/-- Handler `removeVideoFromPlaylist`: identical validation and guard; the
write calls `findByIdAndDelete` (not `findByIdAndUpdate` with `$pull`), so it
deletes the whole playlist document. -/
def removeVideoFromPlaylist (playlists : List Playlist) (videos : List Video)
    (reqUserId playlistId videoId : String) :
    Except ApiError (List Playlist) :=
  if !(jsTruthy playlistId && jsTruthy videoId)
      || !(isValidObjectId playlistId && isValidObjectId videoId) then
    .error ⟨400, "Invalid video and playlist"⟩
  else
    match videos.find? (fun v => v.id == videoId) with
    | none => .error ⟨400, "Video not found"⟩
    | some video =>
      match playlists.find? (fun p => p.id == playlistId) with
      | none => .error ⟨400, "Playlist not found"⟩
      | some playlist =>
        if playlistGuardRejects playlist.owner video.owner reqUserId then
          .error ⟨400, "only owner can add video to their playlist"⟩
        else
          .ok (playlists.filter (fun p => p.id != playlistId))

/-- `Except.isOk`: did the handler succeed (no error raised). -/
def exceptIsOk : Except ApiError α → Bool
  | .ok _ => true
  | .error _ => false

/-! ## Concrete fixtures for closed evaluations -/

/-- A valid ObjectId (24 hex characters). -/
def idA : String := "aaaaaaaaaaaaaaaaaaaaaaaa"

/-- A second valid ObjectId, distinct from `idA`. -/
def idB : String := "bbbbbbbbbbbbbbbbbbbbbbbb"

/-- A valid ObjectId used for a video document. -/
def idC : String := "cccccccccccccccccccccccc"

/-- A valid ObjectId used for a tweet document. -/
def idD : String := "dddddddddddddddddddddddd"

/-- A valid ObjectId used for a like document. -/
def idE : String := "eeeeeeeeeeeeeeeeeeeeeeee"

/-- A valid ObjectId used for a playlist document. -/
def idF : String := "ffffffffffffffffffffffff"

/-- A user document owned by `idA` with an active rotation token. -/
def sampleUserA : User :=
  { id := idA, username := "alice", fullName := "Alice A",
    avtar := "http://res.cloudinary.com/demo/image/upload/avatarA.png",
    refreshToken := some "r1" }

/-- A published video owned by `idA`. -/
def sampleVideo : Video :=
  { id := idC, owner := idA, title := "Sample title",
    description := "Sample description",
    videoFile := "http://res.cloudinary.com/demo/video/upload/file1.mp4",
    thumbnail := "http://res.cloudinary.com/demo/image/upload/thumb1.png",
    views := 0, isPublished := true, createdAt := 1 }

/-- The same video owned by `idB` instead. -/
def videoByB : Video := { sampleVideo with owner := idB }

/-- A tweet by `idA`. -/
def sampleTweet : Tweet :=
  { id := idD, content := "hello", owner := idA, createdAt := 1 }

/-- A Like of the tweet `idD` by `idA`. -/
def sampleTweetLike : Like :=
  { id := idE, video := none, comment := none, tweet := some idD, likedBy := idA }

/-- A Like of the video `idC` by `idA`. -/
def sampleVideoLike : Like :=
  { id := idE, video := some idC, comment := none, tweet := none, likedBy := idA }

/-- An empty playlist owned by `idA`. -/
def samplePlaylist : Playlist :=
  { id := idF, name := "watch later", description := "saved videos",
    owner := idA, videos := [] }

/-- The token verifier used in the session fixtures: accepts exactly the
token string `r1` and decodes it to `idA`. -/
def sampleVerify (tok : String) : Option String :=
  if tok == "r1" then some idA else none

/-! ## Shared lemmas -/

/-- A valid ObjectId is a non-empty (truthy) string. -/
theorem jsTruthy_of_isValidObjectId {s : String} (h : isValidObjectId s = true) :
    jsTruthy s = true := by
  rcases eq_or_ne s "" with he | hne
  · subst he
    exact absurd h (by decide)
  · simpa [jsTruthy] using hne

/-- C1: for the two paginated list views, a (page, limit) pair whose skip
passes the last record does not yield an empty page on the video feed: with
zero pipeline results (here: empty stores, so min(limit, remaining) = 0)
`getAllVideos` raises a 500 error, while `getVideoComments` on the same kind
of input returns the empty page with `currentPage = page` as the claim
demands. -/
theorem paginated_views_zero_match_divergence :
    getAllVideos [] [] idA "q" 1 10 = .error ⟨500, "Video not found"⟩
    ∧ getVideoComments [] [] [] idA idB 1 10
        = .ok { docs := [], totalDocs := 0, limit := 10, page := 1, totalPages := 0 } := by
  exact ⟨rfl, rfl⟩

/-- C3: `updateVideo` and `deleteVideo` perform no ownership check.  The
requester `idB` differs from the video owner `idA`, yet the update succeeds
and mutates the stored record, and the delete (whose handler never even
reads the requester) removes it — instead of the Forbidden failure with the
record unchanged that the ownership rule demands. -/
theorem video_mutation_without_ownership_check :
    sampleVideo.owner = idA ∧ idB ≠ idA
    ∧ updateVideo [sampleVideo] (fun _ => true) idB idC "New title" "New description"
        (some "/tmp/thumb2.png") "http://res.cloudinary.com/demo/image/upload/thumb2.png"
      = .ok ([{ sampleVideo with
                  title := "New title"
                  description := "New description"
                  thumbnail := "http://res.cloudinary.com/demo/image/upload/thumb2.png" }],
             ["thumb1"])
    ∧ deleteVideo [sampleVideo] (fun _ => true) idC
      = .ok { videos := [], attempts := ["file1", "thumb1"] } := by
  refine ⟨rfl, by decide, rfl, rfl⟩

/-- C5: in the tweet feed the computed `isLiked` is false even when the like
records joined to the tweet contain the requesting viewer's id: the
`$in` expression tests the path parameter against `ownerDetails.likedBy`,
an always-empty path, instead of `likeDetails.likedBy`.  Here the viewer
`idA` has liked tweet `idD` (the joined like store contains that like, and
`likesCount` is 1), yet the row reports `isLiked = false`. -/
theorem tweet_feed_isLiked_ignores_viewer_likes :
    getUserTweets [sampleTweet] [sampleUserA] [sampleTweetLike] idA idA
      = .ok [{ tid := idD, content := "hello",
               ownerDetails := some { oid := idA, username := "alice" },
               likesCount := 1, isLiked := false, createdAt := 1 }]
    ∧ idA ∈ [sampleTweetLike].map Like.likedBy := by
  refine ⟨rfl, by decide⟩

/-- C7: on a successful refresh the stored rotation token is replaced by the
fresh one, but the returned pair's `refreshToken` is the JS value
`undefined` (the source destructures a field name that the generator does
not return), not the newly stored token `r2`. -/
theorem refresh_response_token_is_undefined :
    refreshAccessToken [sampleUserA] sampleVerify "a2" "r2" (some "r1")
      = .ok ([{ sampleUserA with refreshToken := some "r2" }],
             { accessToken := "a2", refreshToken := none })
    ∧ (none : Option String) ≠ some "r2" := by
  refine ⟨rfl, by decide⟩

/-- C8: `logoutUser` does not clear the stored rotation token: the `$set` of
`refreshToken` to `undefined` is stripped by Mongoose, the store is returned
unchanged, and a previously issued refresh token still compares equal to the
stored one — a subsequent `refreshAccessToken` with the old token still
succeeds. -/
theorem logout_leaves_rotation_token_stored :
    logoutUser [sampleUserA] idA = [sampleUserA]
    ∧ sampleUserA.refreshToken = some "r1"
    ∧ exceptIsOk (refreshAccessToken (logoutUser [sampleUserA] idA)
        sampleVerify "a2" "r2" (some "r1")) = true := by
  refine ⟨rfl, rfl, rfl⟩

/-- C9 counterexample: the playlist video-add/remove mutation proceeds for a
requester (`idB`) who owns the video but not the playlist (owned by `idA`),
so the guard does not reject every case where one of the two owners differs
from the requester. -/
theorem playlist_guard_counterexample :
    samplePlaylist.owner ≠ idB
    ∧ addVideoToPlaylist [samplePlaylist] [videoByB] idB idF idC
        = .ok [{ samplePlaylist with videos := [idC] }]
    ∧ removeVideoFromPlaylist [samplePlaylist] [videoByB] idB idF idC = .ok [] := by
  refine ⟨by decide, rfl, rfl⟩

/-- C9 (amended): the grouped guard `(playlistOwner && videoOwner) !==
requester` evaluates its JS `&&` to the video-owner string whenever the
playlist-owner string is non-empty (as every stored ObjectId string is), so
the mutation proceeds exactly when the video's owner equals the requester;
the playlist's owner is not constrained at all. -/
theorem playlist_guard_video_owner_only
    (playlists : List Playlist) (videos : List Video)
    (reqUserId playlistId videoId : String)
    (video : Video) (playlist : Playlist)
    (hpv : (jsTruthy playlistId && jsTruthy videoId) = true)
    (hpo : (isValidObjectId playlistId && isValidObjectId videoId) = true)
    (hfv : videos.find? (fun v => v.id == videoId) = some video)
    (hfp : playlists.find? (fun p => p.id == playlistId) = some playlist)
    (hown : playlist.owner ≠ "") :
    (exceptIsOk (addVideoToPlaylist playlists videos reqUserId playlistId videoId) = true
      ↔ video.owner = reqUserId)
    ∧ (exceptIsOk (removeVideoFromPlaylist playlists videos reqUserId playlistId videoId) = true
      ↔ video.owner = reqUserId) := by
  have hcond : (!(jsTruthy playlistId && jsTruthy videoId)
      || !(isValidObjectId playlistId && isValidObjectId videoId)) = false := by
    rw [hpv, hpo]; rfl
  have hguard : playlistGuardRejects playlist.owner video.owner reqUserId
      = (video.owner != reqUserId) := by
    unfold playlistGuardRejects jsAndStr
    rw [if_neg (by simpa using hown)]
  constructor
  · simp only [addVideoToPlaylist, hcond, Bool.false_eq_true, if_false, hfv, hfp, hguard]
    by_cases howner : video.owner = reqUserId
    · simp [howner, exceptIsOk]
    · simp [howner, exceptIsOk, bne_iff_ne]
  · simp only [removeVideoFromPlaylist, hcond, Bool.false_eq_true, if_false, hfv, hfp, hguard]
    by_cases howner : video.owner = reqUserId
    · simp [howner, exceptIsOk]
    · simp [howner, exceptIsOk, bne_iff_ne]

/-- C9 amended, instantiated: with the playlist owned by `idA` and the video
owned by the requester `idB`, both mutations proceed. -/
theorem playlist_guard_video_owner_only_witness :
    (exceptIsOk (addVideoToPlaylist [samplePlaylist] [videoByB] idB idF idC) = true
      ↔ videoByB.owner = idB)
    ∧ (exceptIsOk (removeVideoFromPlaylist [samplePlaylist] [videoByB] idB idF idC) = true
      ↔ videoByB.owner = idB) :=
  playlist_guard_video_owner_only [samplePlaylist] [videoByB] idB idF idC
    videoByB samplePlaylist (by decide) (by decide) rfl rfl (by decide)

/-- C10: for a well-formed comment id that matches no stored comment, both
`updateComment` and `deleteComment` fail with the 400 ownership error
`User is not the owner of this comment` (the requester id is compared with
the optional-chained owner of the absent record, which is `undefined`,
before any existence check), not with a NotFound error. -/
theorem absent_comment_yields_ownership_error
    (comments : List Comment) (reqUserId commentId content : String)
    (hvalid : isValidObjectId commentId = true)
    (hcontent : jsTruthy content = true)
    (habsent : comments.find? (fun c => c.id == commentId) = none) :
    updateComment comments reqUserId commentId content
        = .error ⟨400, "User is not the owner of this comment"⟩
    ∧ deleteComment comments reqUserId commentId
        = .error ⟨400, "User is not the owner of this comment"⟩ := by
  have htruthy : jsTruthy commentId = true := jsTruthy_of_isValidObjectId hvalid
  constructor
  · simp only [updateComment, hvalid, hcontent, habsent, Bool.not_true,
      Bool.false_eq_true, if_false, Option.map_none]
    rfl
  · simp only [deleteComment, hvalid, htruthy, hcontent, habsent, Bool.and_self,
      Bool.not_true, Bool.false_eq_true, if_false, Option.map_none]
    rfl

/-- C10 instantiated: the empty comment store with a valid id. -/
theorem absent_comment_yields_ownership_error_witness :
    updateComment [] idA idB "new text"
        = .error ⟨400, "User is not the owner of this comment"⟩
    ∧ deleteComment [] idA idB
        = .error ⟨400, "User is not the owner of this comment"⟩ :=
  absent_comment_yields_ownership_error [] idA idB "new text"
    (by decide) (by decide) rfl

/-- C6: for every stored video (with truthy asset URLs) and every media-host
outcome oracle, `deleteVideo` sends exactly one deletion for the primary
asset's public id followed by exactly one for the thumbnail's public id;
the attempt list does not depend on `mediaOk`, so the second deletion is
attempted even when the first fails. -/
theorem deleteVideo_attempts_each_asset_once
    (videos : List Video) (mediaOk : String → Bool) (videoId : String)
    (video : Video)
    (hvalid : (jsTruthy videoId && isValidObjectId videoId) = true)
    (hfind : videos.find? (fun v => v.id == videoId) = some video)
    (hfile : jsTruthy video.videoFile = true)
    (hthumb : jsTruthy video.thumbnail = true) :
    deleteVideo videos mediaOk videoId
      = .ok { videos := videos.filter (fun x => x.id != video.id),
              attempts := [publicIdOf video.videoFile, publicIdOf video.thumbnail] } := by
  simp only [deleteVideo, hvalid, Bool.not_true, Bool.false_eq_true, if_false,
    hfind, hfile, hthumb, if_true, deleteFromCloudinary]
  rfl

/-- C6 instantiated, with an oracle under which the primary-asset deletion
fails: the thumbnail deletion is still attempted. -/
theorem deleteVideo_attempts_each_asset_once_witness :
    deleteVideo [sampleVideo] (fun pid => pid != "file1") idC
      = .ok { videos := [sampleVideo].filter (fun x => x.id != sampleVideo.id),
              attempts := [publicIdOf sampleVideo.videoFile, publicIdOf sampleVideo.thumbnail] } :=
  deleteVideo_attempts_each_asset_once [sampleVideo] (fun pid => pid != "file1")
    idC sampleVideo (by decide) rfl (by decide) (by decide)

/-- C4: the match stage of the video feed keeps exactly the union of the
videos whose title contains the free-text query as a substring and the
videos owned by the scoping user id: a video is in the matched list iff it
is stored and satisfies one of the two disjuncts. -/
theorem videoFeedMatch_exact_union
    (vs : List Video) (userId query : String) (v : Video) :
    v ∈ vs.filter (videoFeedMatch userId query)
      ↔ v ∈ vs ∧ (strContains v.title query = true ∨ v.owner = userId) := by
  rw [List.mem_filter]
  simp [videoFeedMatch, Bool.or_eq_true, beq_iff_eq, or_comm]

/-- A store with no match for `p` keeps no match for `p` after any filter. -/
theorem find?_filter_of_none (p q : Like → Bool) (likes : List Like)
    (hnone : likes.find? p = none) : (likes.filter q).find? p = none := by
  apply List.find?_eq_none.mpr
  intro x hx hpx
  exact List.find?_eq_none.mp hnone x (List.mem_filter.mp hx).1 hpx

/-- Appending one matching element to a store with no match for `p` makes
`find?` return exactly that element. -/
theorem find?_append_singleton (p : Like → Bool) (likes : List Like) (x : Like)
    (hnone : likes.find? p = none) (hpx : p x = true) :
    (likes ++ [x]).find? p = some x := by
  rw [List.find?_append, hnone]
  simp [List.find?_cons_of_pos, hpx]

/-- Under the at-most-one-per-pair invariant, deleting (by id) the Like that
`find?` located leaves no further match for the pair filter. -/
theorem find?_after_delete_of_invariant (p : Like → Bool) (likes : List Like)
    (l : Like) (hfind : likes.find? p = some l)
    (hinv : (likes.filter p).length ≤ 1) :
    (likes.filter (fun x => x.id != l.id)).find? p = none := by
  apply List.find?_eq_none.mpr
  intro x hx hpx
  have hxmem := (List.mem_filter.mp hx).1
  have hxid := (List.mem_filter.mp hx).2
  have hlmem : l ∈ likes := List.mem_of_find?_eq_some hfind
  have hpl : p l = true := List.find?_some hfind
  have hxl : x ≠ l := by
    intro he
    subst he
    simp at hxid
  have hx2 : x ∈ likes.filter p := List.mem_filter.mpr ⟨hxmem, hpx⟩
  have hl2 : l ∈ likes.filter p := List.mem_filter.mpr ⟨hlmem, hpl⟩
  rcases hfp : likes.filter p with _ | ⟨a, _ | ⟨b, t⟩⟩
  · rw [hfp] at hx2
    simp at hx2
  · rw [hfp] at hx2 hl2
    simp only [List.mem_singleton] at hx2 hl2
    exact hxl (hx2.trans hl2.symm)
  · rw [hfp] at hinv
    simp at hinv

/-- C2: under the at-most-one-Like-per-pair invariant, toggling a video like
(or a comment like) twice in sequence with no interleaved operation restores
the Like store's membership state for that (actor, target) pair, and a
single toggle flips it (creates the Like when absent, deletes it when
present). -/
theorem toggle_like_twice_restores_membership
    (likes : List Like) (videoId commentId reqUserId id1 id2 : String)
    (hvinv : (likes.filter (videoLikePred videoId reqUserId)).length ≤ 1)
    (hcinv : (likes.filter (commentLikePred commentId reqUserId)).length ≤ 1) :
    (likeExists (videoLikePred videoId reqUserId)
        (toggleVideoLikeCore
          (toggleVideoLikeCore likes videoId reqUserId id1).1 videoId reqUserId id2).1
      = likeExists (videoLikePred videoId reqUserId) likes
    ∧ likeExists (videoLikePred videoId reqUserId)
        (toggleVideoLikeCore likes videoId reqUserId id1).1
      = !likeExists (videoLikePred videoId reqUserId) likes)
    ∧ (likeExists (commentLikePred commentId reqUserId)
        (toggleCommentLikeCore
          (toggleCommentLikeCore likes commentId reqUserId id1).1 commentId reqUserId id2).1
      = likeExists (commentLikePred commentId reqUserId) likes
    ∧ likeExists (commentLikePred commentId reqUserId)
        (toggleCommentLikeCore likes commentId reqUserId id1).1
      = !likeExists (commentLikePred commentId reqUserId) likes) := by
  constructor
  · cases hfind : likes.find? (videoLikePred videoId reqUserId) with
    | none =>
      have hnew := find?_append_singleton (videoLikePred videoId reqUserId) likes
          { id := id1, video := some videoId, comment := none, tweet := none,
            likedBy := reqUserId } hfind (by simp [videoLikePred])
      have hq := find?_filter_of_none (videoLikePred videoId reqUserId)
          (fun x => x.id != id1) likes hfind
      constructor
      · simp [toggleVideoLikeCore, hfind, hnew, likeExists, List.filter_append, hq]
      · simp [toggleVideoLikeCore, hfind, hnew, likeExists]
    | some l =>
      have hdel := find?_after_delete_of_invariant (videoLikePred videoId reqUserId)
          likes l hfind hvinv
      have hnew2 := find?_append_singleton (videoLikePred videoId reqUserId)
          (likes.filter (fun x => x.id != l.id))
          { id := id2, video := some videoId, comment := none, tweet := none,
            likedBy := reqUserId } hdel (by simp [videoLikePred])
      constructor
      · simp [toggleVideoLikeCore, hfind, hdel, hnew2, likeExists]
      · simp [toggleVideoLikeCore, hfind, hdel, likeExists]
  · cases hfind : likes.find? (commentLikePred commentId reqUserId) with
    | none =>
      have hnew := find?_append_singleton (commentLikePred commentId reqUserId) likes
          { id := id1, video := none, comment := some commentId, tweet := none,
            likedBy := reqUserId } hfind (by simp [commentLikePred])
      have hq := find?_filter_of_none (commentLikePred commentId reqUserId)
          (fun x => x.id != id1) likes hfind
      constructor
      · simp [toggleCommentLikeCore, hfind, hnew, likeExists, List.filter_append, hq]
      · simp [toggleCommentLikeCore, hfind, hnew, likeExists]
    | some l =>
      have hdel := find?_after_delete_of_invariant (commentLikePred commentId reqUserId)
          likes l hfind hcinv
      have hnew2 := find?_append_singleton (commentLikePred commentId reqUserId)
          (likes.filter (fun x => x.id != l.id))
          { id := id2, video := none, comment := some commentId, tweet := none,
            likedBy := reqUserId } hdel (by simp [commentLikePred])
      constructor
      · simp [toggleCommentLikeCore, hfind, hdel, hnew2, likeExists]
      · simp [toggleCommentLikeCore, hfind, hdel, likeExists]

/-- C2 instantiated: a store holding one like (of the video `idC` by `idA`);
toggling the video like twice restores membership and one toggle flips it,
and likewise for a comment pair with no stored like. -/
theorem toggle_like_twice_restores_membership_witness :
    (likeExists (videoLikePred idC idA)
        (toggleVideoLikeCore
          (toggleVideoLikeCore [sampleVideoLike] idC idA idA).1 idC idA idA).1
      = likeExists (videoLikePred idC idA) [sampleVideoLike]
    ∧ likeExists (videoLikePred idC idA)
        (toggleVideoLikeCore [sampleVideoLike] idC idA idA).1
      = !likeExists (videoLikePred idC idA) [sampleVideoLike])
    ∧ (likeExists (commentLikePred idD idA)
        (toggleCommentLikeCore
          (toggleCommentLikeCore [sampleVideoLike] idD idA idA).1 idD idA idA).1
      = likeExists (commentLikePred idD idA) [sampleVideoLike]
    ∧ likeExists (commentLikePred idD idA)
        (toggleCommentLikeCore [sampleVideoLike] idD idA idA).1
      = !likeExists (commentLikePred idD idA) [sampleVideoLike]) :=
  toggle_like_twice_restores_membership [sampleVideoLike] idC idD idA idA idA
    (by decide) (by decide)
